import Mathlib

/-!
Shallow embedding of the avhttp multi-connection downloader coordinator
(include/avhttp/multi_download.hpp) together with the fragments of its
collaborators that the coordinator observes.  The HTTP client
(http_stream), URL type and storage backend live outside this repository
and are abstracted: a stream is represented by its provenance (probe or
fresh) and whether residual body bytes are still buffered in it, storage
by which constructor produced it, and every externally visible side
effect (async_open, async_request, timer waits, stream closes) by an
explicit event.  Wall-clock times and timer deadlines are integers
counting seconds, matching the second-granularity comparisons in the
source.
-/

/-- Download mode enumeration from multi_download.hpp (source spelling kept). -/
inductive downlad_mode
  | compact_mode
  | dispersion_mode
  | quick_read_mode
deriving DecidableEq, Repr

/-- Constant default_request_piece_num from multi_download.hpp. -/
def default_request_piece_num : ℤ := 10

/-- Constant default_time_out from multi_download.hpp. -/
def default_time_out : ℤ := 11

/-- Constant default_piece_size from multi_download.hpp. -/
def default_piece_size : ℤ := 32768

/-- Constant default_connections_limit from multi_download.hpp. -/
def default_connections_limit : ℤ := 5

/-- The settings structure of multi_download.hpp.  The fs::path member is
represented as a string. -/
structure settings where
  m_download_rate_limit : ℤ
  m_connections_limit : ℤ
  m_piece_size : ℤ
  m_time_out : ℤ
  m_downlad_mode : downlad_mode
  m_meta_file : String
deriving DecidableEq, Repr

/-- The default-constructed settings value, from the settings constructor
in multi_download.hpp: rate limit -1, connections limit -1, piece size -1,
time_out 11, dispersion mode, empty meta file path. -/
def default_settings : settings :=
  { m_download_rate_limit := -1
    m_connections_limit := -1
    m_piece_size := -1
    m_time_out := 11
    m_downlad_mode := downlad_mode.dispersion_mode
    m_meta_file := "" }

/-- Abstraction of the external http_stream held through http_stream_ptr:
whether this stream object is the one that served the synchronous probe,
and whether response body bytes are still buffered inside it (the probe
response leaves such bytes; http_stream::clear drops them; a freshly
constructed stream has none). -/
structure http_stream_model where
  m_is_probe : Bool
  m_buffered : Bool
deriving DecidableEq, Repr

/-- A freshly constructed http_stream (new http_stream(m_io_service)). -/
def fresh_stream : http_stream_model := ⟨false, false⟩

/-- The http_stream_object structure of multi_download.hpp.  The 2048-byte
scratch buffer carries no observable state and is omitted; ptime values
are integer seconds. -/
structure http_stream_object where
  m_stream : http_stream_model
  m_request_range : ℤ × ℤ
  m_bytes_transferred : ℤ
  m_bytes_downloaded : ℤ
  m_last_request_time : ℤ
deriving DecidableEq, Repr

/-- Which constructor produced the storage sink in open: the user-supplied
storage_constructor_type, or default_storage_constructor. -/
inductive storage_kind
  | user_defined
  | default_storage
deriving DecidableEq, Repr

/-- Externally visible actions the coordinator can perform on its
collaborators: issuing asynchronous operations on a slot (identified by
its index), waiting on the timer, closing a slot stream, and the
teardown actions the specification assigns to close. -/
inductive Event
  | asyncOpen (index : ℕ) (u : String)
  | asyncRequest (index : ℕ)
  | asyncWaitTimer
  | closeStream (index : ℕ)
  | cancelTimer
  | flushMeta
  | releaseStorage
deriving DecidableEq, Repr

/-- The response data the probe inspects through response_options and
location: the _status_code pseudo-header, Content-Length, Content-Range
and Connection headers (empty string when absent), and the redirect
location (empty when none). -/
structure Response where
  status_code : String
  content_length : String
  content_range : String
  connection : String
  location : String
deriving DecidableEq, Repr

/-- Outcome of the synchronous h.open(u, ec) probe: a truthy error code,
or a response to inspect. -/
inductive ProbeResult
  | fail (ec : ℕ)
  | ok (r : Response)
deriving DecidableEq, Repr

/-- The multi_download class members (multi_download.hpp).  The
io_service reference and the 2 KiB buffers are not observable state; the
deadline_timer is represented by its current expiry deadline. -/
structure multi_download where
  m_streams : List http_stream_object
  m_final_url : String
  m_accept_multi : Bool
  m_keep_alive : Bool
  m_file_size : ℤ
  m_settings : settings
  m_timer_deadline : ℤ
  m_storage : Option storage_kind
  m_abort : Bool
deriving DecidableEq, Repr

/-- The freshly constructed coordinator (multi_download constructor):
accept_multi and keep_alive false, file size -1, timer expiry at
seconds(0), no storage, abort false. -/
def multi_download.init : multi_download :=
  { m_streams := []
    m_final_url := ""
    m_accept_multi := false
    m_keep_alive := false
    m_file_size := -1
    m_settings := default_settings
    m_timer_deadline := 0
    m_storage := none
    m_abort := false }

/-- ASCII lowercasing of one character, as boost::to_lower performs on
header bytes. -/
def ascii_lower (c : Char) : Char :=
  if 'A' ≤ c ∧ c ≤ 'Z' then Char.ofNat (c.toNat + 32) else c

/-- ASCII lowercasing of a string (boost::to_lower on a std::string). -/
def string_lower (s : String) : String :=
  String.mk (s.data.map ascii_lower)

/-- The substring after the first slash, as computed at lines 186-190 of
multi_download.hpp: find the first slash and take the substring after it;
when there is no slash the result is the empty string (the source
assigns an empty string in that branch). -/
def afterSlash (s : String) : String :=
  String.mk ((s.data.dropWhile (fun c => c ≠ '/')).drop 1)

/-- Accumulating decimal parse of a character list; fails on the first
non-digit character. -/
def digits_acc : List Char → ℤ → Option ℤ
  | [], acc => some acc
  | c :: rest, acc =>
    if c.isDigit then digits_acc rest (acc * 10 + ((c.toNat - 48 : ℕ) : ℤ))
    else none

/-- Value of a non-empty all-digit character list. -/
def digits_val : List Char → Option ℤ
  | [] => none
  | c :: rest => digits_acc (c :: rest) 0

/-- Smallest value representable in boost::int64_t. -/
def int64_min : ℤ := -(2 ^ 63)

/-- Largest value representable in boost::int64_t. -/
def int64_max : ℤ := 2 ^ 63 - 1

/-- boost::lexical_cast to boost::int64_t: an optional sign followed by
one or more decimal digits consuming the whole string, within the
int64_t range; anything else throws bad_lexical_cast, modelled as none. -/
def lexical_cast_int64 (s : String) : Option ℤ :=
  let core : Option ℤ :=
    match s.data with
    | '-' :: rest => (digits_val rest).map (fun n => -n)
    | '+' :: rest => digits_val rest
    | l => digits_val l
  match core with
  | some n => if int64_min ≤ n ∧ n ≤ int64_max then some n else none
  | none => none

/-- Lines 178-210 of multi_download.hpp: given whether the status code was
206 and the Content-Length and Content-Range header values, compute the
resulting (m_file_size, m_accept_multi) pair.  m_file_size was reset to -1
at the start of open; when the status is not 206 the whole block is
skipped and m_accept_multi is already false. -/
def probe_size (accept0 : Bool) (cl cr : String) : ℤ × Bool :=
  if accept0 then
    let len1 := if cl = "" then afterSlash cr else cl
    if len1 = "" then (-1, false)
    else
      match lexical_cast_int64 len1 with
      | some n => (n, true)
      | none => (-1, false)
  else (-1, false)

/-- Lines 228-235 of multi_download.hpp: store the settings, then replace
a -1 connections limit by the default and, when the file size is known,
a -1 piece size by the default. -/
def apply_default_settings (s : settings) (file_size : ℤ) : settings :=
  let s1 :=
    if s.m_connections_limit = -1 then
      { s with m_connections_limit := default_connections_limit }
    else s
  if s1.m_piece_size = -1 ∧ file_size ≠ -1 then
    { s1 with m_piece_size := default_piece_size }
  else s1

/-- The loop at lines 255-276 of multi_download.hpp, parametrised by the
current slot index and the number of remaining iterations: each iteration
creates a slot holding a fresh stream, stamps its last request time, and
issues async_open on the final url. -/
def make_extra_slots (now : ℤ) (u : String) : ℕ → ℕ → List http_stream_object × List Event
  | _, 0 => ([], [])
  | i, n + 1 =>
    let slot : http_stream_object :=
      { m_stream := fresh_stream
        m_request_range := (0, 0)
        m_bytes_transferred := 0
        m_bytes_downloaded := 0
        m_last_request_time := now }
    let rest := make_extra_slots now u (i + 1) n
    (slot :: rest.1, Event.asyncOpen i u :: rest.2)

/-- The successful-probe tail of multi_download::open (lines 163-294),
applied to the coordinator after the pool was cleared: record the final
url, range support, file size, keep-alive flag and defaulted settings,
create the storage sink, reuse the probe stream as slot 0 (its buffered
body bytes cleared exactly when keep-alive), create the extra slots when
multi-connection mode is on, issue the slot 0 async_request and start the
timer. -/
def multi_download.open_ok (st : multi_download) (u : String) (s : settings)
    (user_factory : Bool) (r : Response) (now : ℤ) :
    multi_download × List Event × Option ℕ :=
  let final_url := if r.location ≠ "" then r.location else u
  let sm := probe_size (r.status_code == "206") r.content_length r.content_range
  let keep := string_lower r.connection == "keep-alive"
  let s1 := apply_default_settings s sm.1
  let slot0 : http_stream_object :=
    { m_stream := { m_is_probe := true, m_buffered := !keep }
      m_request_range := (0, 0)
      m_bytes_transferred := 0
      m_bytes_downloaded := 0
      m_last_request_time := now }
  let extra_count : ℕ := if sm.2 then (s1.m_connections_limit - 1).toNat else 0
  let ex := make_extra_slots now final_url 1 extra_count
  ({ st with
      m_final_url := final_url
      m_accept_multi := sm.2
      m_keep_alive := keep
      m_file_size := sm.1
      m_settings := s1
      m_storage := some (if user_factory then storage_kind.user_defined
                         else storage_kind.default_storage)
      m_abort := false
      m_streams := slot0 :: ex.1 },
   ex.2 ++ [Event.asyncRequest 0, Event.asyncWaitTimer], none)

/-- multi_download::open(const url, const settings, storage_constructor_type)
(lines 137-295): clear the pool and reset the file size, run the probe;
on failure return its error code, otherwise continue with open_ok. -/
def multi_download.open_impl (st : multi_download) (u : String) (s : settings)
    (user_factory : Bool) (pr : ProbeResult) (now : ℤ) :
    multi_download × List Event × Option ℕ :=
  let st1 := { st with m_streams := ([] : List http_stream_object), m_file_size := (-1 : ℤ) }
  match pr with
  | ProbeResult.fail ec => (st1, [], some ec)
  | ProbeResult.ok r => multi_download.open_ok st1 u s user_factory r now

/-- multi_download::open(const url, error_code) (lines 131-135):
default-construct a settings value and delegate to the settings overload
with no storage constructor. -/
def multi_download.open_two_arg (st : multi_download) (u : String)
    (pr : ProbeResult) (now : ℤ) : multi_download × List Event × Option ℕ :=
  multi_download.open_impl st u default_settings false pr now

/-- multi_download::close (lines 298-301): the body only sets m_abort. -/
def multi_download.close (st : multi_download) : multi_download × List Event :=
  ({ st with m_abort := true }, [])

/-- The body of the per-slot timeout check in on_tick (lines 337-354):
when the time since the last request exceeds the timeout, close the
stream, replace it by a fresh one, stamp the last request time and
reissue async_open on the final url; otherwise leave the slot alone. -/
def tick_check_slot (now time_out : ℤ) (u : String) (i : ℕ)
    (s : http_stream_object) : http_stream_object × List Event :=
  if now - s.m_last_request_time > time_out then
    ({ s with m_stream := fresh_stream, m_last_request_time := now },
     [Event.closeStream i, Event.asyncOpen i u])
  else (s, [])

/-- The slot loop of on_tick (lines 335-355), carrying the running index. -/
def tick_loop (now time_out : ℤ) (u : String) :
    ℕ → List http_stream_object → List http_stream_object × List Event
  | _, [] => ([], [])
  | i, s :: rest =>
    let cur := tick_check_slot now time_out u i s
    let rest2 := tick_loop now time_out u (i + 1) rest
    (cur.1 :: rest2.1, cur.2 ++ rest2.2)

/-- multi_download::on_tick (lines 325-356): unless aborted, push the
timer expiry one second past its previous deadline and wait on it again;
then run the timeout check over every slot. -/
def multi_download.on_tick (now : ℤ) (st : multi_download) :
    multi_download × List Event :=
  let dl := if st.m_abort then st.m_timer_deadline else st.m_timer_deadline + 1
  let evs0 : List Event := if st.m_abort then [] else [Event.asyncWaitTimer]
  let lp := tick_loop now st.m_settings.m_time_out st.m_final_url 0 st.m_streams
  ({ st with m_timer_deadline := dl, m_streams := lp.1 }, evs0 ++ lp.2)

/-- Recogniser for asyncOpen events. -/
def is_async_open : Event → Bool
  | Event.asyncOpen _ _ => true
  | _ => false

/-- Number of asyncOpen events in an event list. -/
def count_async_open (l : List Event) : ℕ := (l.filter is_async_open).length

lemma lexical_cast_int64_empty : lexical_cast_int64 "" = none := rfl

lemma probe_size_accept (a : Bool) (cl cr : String) :
    (probe_size a cl cr).2
      = (a && ((lexical_cast_int64 cl).isSome
          || (decide (cl = "") && (lexical_cast_int64 (afterSlash cr)).isSome))) := by
  cases a with
  | false => rfl
  | true =>
    by_cases hcl : cl = ""
    · subst hcl
      by_cases h2 : afterSlash cr = ""
      · simp [probe_size, h2, lexical_cast_int64_empty]
      · cases hres : lexical_cast_int64 (afterSlash cr) with
        | none => simp [probe_size, h2, hres, lexical_cast_int64_empty]
        | some n => simp [probe_size, h2, hres, lexical_cast_int64_empty]
    · cases hres : lexical_cast_int64 cl with
      | none => simp [probe_size, hcl, hres]
      | some n => simp [probe_size, hcl, hres]

lemma make_extra_slots_length (now : ℤ) (u : String) :
    ∀ (n i : ℕ), (make_extra_slots now u i n).1.length = n
  | 0, _ => rfl
  | n + 1, i => by
      simp [make_extra_slots, make_extra_slots_length now u n (i + 1)]

lemma make_extra_slots_count (now : ℤ) (u : String) :
    ∀ (n i : ℕ), count_async_open (make_extra_slots now u i n).2 = n
  | 0, _ => rfl
  | n + 1, i => by
      have ih := make_extra_slots_count now u n (i + 1)
      simp [make_extra_slots, count_async_open, is_async_open, List.filter] at ih ⊢
      exact ih

lemma tick_loop_get (now t : ℤ) (u : String) :
    ∀ (l : List http_stream_object) (i k : ℕ),
      (tick_loop now t u i l).1.get? k
        = (l.get? k).map (fun s => (tick_check_slot now t u (i + k) s).1)
  | [], _, _ => by simp [tick_loop]
  | s :: rest, i, 0 => by simp [tick_loop]
  | s :: rest, i, k + 1 => by
      have ih := tick_loop_get now t u rest (i + 1) k
      have harith : i + 1 + k = i + (k + 1) := by omega
      simp only [tick_loop, List.get?_cons_succ, ih, harith]

lemma tick_loop_mem_open (now t : ℤ) (u v : String) (j : ℕ) :
    ∀ (l : List http_stream_object) (i : ℕ),
      (Event.asyncOpen j v ∈ (tick_loop now t u i l).2
        ↔ ∃ k s, l.get? k = some s ∧ i + k = j ∧ v = u
            ∧ now - s.m_last_request_time > t)
  | [], i => by simp [tick_loop]
  | s :: rest, i => by
      have ih := tick_loop_mem_open now t u v j rest (i + 1)
      by_cases hc : now - s.m_last_request_time > t
      · simp only [tick_loop, tick_check_slot, if_pos hc, List.mem_append, List.mem_cons,
          List.not_mem_nil, or_false, ih]
        constructor
        · rintro ((h1 | h1) | ⟨k, s', h1, h2, h3, h4⟩)
          · cases h1
          · obtain ⟨rfl, rfl⟩ := Event.asyncOpen.inj h1
            exact ⟨0, s, rfl, by omega, rfl, hc⟩
          · exact ⟨k + 1, s', h1, by omega, h3, h4⟩
        · rintro ⟨k, s', h1, h2, h3, h4⟩
          cases k with
          | zero =>
              obtain rfl : s = s' := by simpa using h1
              subst h3
              left; right
              have hj : j = i := by omega
              rw [hj]
          | succ k' =>
              right
              exact ⟨k', s', by simpa using h1, by omega, h3, h4⟩
      · simp only [tick_loop, tick_check_slot, if_neg hc, List.nil_append, ih]
        constructor
        · rintro ⟨k, s', h1, h2, h3, h4⟩
          exact ⟨k + 1, s', h1, by omega, h3, h4⟩
        · rintro ⟨k, s', h1, h2, h3, h4⟩
          cases k with
          | zero =>
              obtain rfl : s = s' := by simpa using h1
              exact absurd h4 hc
          | succ k' => exact ⟨k', s', by simpa using h1, by omega, h3, h4⟩

lemma tick_loop_mem_close (now t : ℤ) (u : String) (j : ℕ) :
    ∀ (l : List http_stream_object) (i : ℕ),
      (Event.closeStream j ∈ (tick_loop now t u i l).2
        ↔ ∃ k s, l.get? k = some s ∧ i + k = j ∧ now - s.m_last_request_time > t)
  | [], i => by simp [tick_loop]
  | s :: rest, i => by
      have ih := tick_loop_mem_close now t u j rest (i + 1)
      by_cases hc : now - s.m_last_request_time > t
      · simp only [tick_loop, tick_check_slot, if_pos hc, List.mem_append, List.mem_cons,
          List.not_mem_nil, or_false, ih]
        constructor
        · rintro ((h1 | h1) | ⟨k, s', h1, h2, h3⟩)
          · obtain rfl := Event.closeStream.inj h1
            exact ⟨0, s, rfl, by omega, hc⟩
          · cases h1
          · exact ⟨k + 1, s', h1, by omega, h3⟩
        · rintro ⟨k, s', h1, h2, h3⟩
          cases k with
          | zero =>
              obtain rfl : s = s' := by simpa using h1
              left; left
              have hj : j = i := by omega
              rw [hj]
          | succ k' =>
              right
              exact ⟨k', s', by simpa using h1, by omega, h3⟩
      · simp only [tick_loop, tick_check_slot, if_neg hc, List.nil_append, ih]
        constructor
        · rintro ⟨k, s', h1, h2, h3⟩
          exact ⟨k + 1, s', h1, by omega, h3⟩
        · rintro ⟨k, s', h1, h2, h3⟩
          cases k with
          | zero =>
              obtain rfl : s = s' := by simpa using h1
              exact absurd h3 hc
          | succ k' => exact ⟨k', s', by simpa using h1, by omega, h3⟩

lemma on_tick_abort (now : ℤ) (st : multi_download) :
    (multi_download.on_tick now st).1.m_abort = st.m_abort := rfl

lemma on_tick_deadline_succ (now : ℤ) (st : multi_download) (h : st.m_abort = false) :
    (multi_download.on_tick now st).1.m_timer_deadline = st.m_timer_deadline + 1 := by
  simp [multi_download.on_tick, h]

lemma tick_fold_deadline :
    ∀ (nows : List ℤ) (st : multi_download), st.m_abort = false →
      ((nows.foldl (fun acc now => (multi_download.on_tick now acc).1) st).m_timer_deadline
        = st.m_timer_deadline + nows.length)
  | [], st, _ => by simp
  | n :: rest, st, h => by
      have h2 : (multi_download.on_tick n st).1.m_abort = false := by
        rw [on_tick_abort]; exact h
      have ih := tick_fold_deadline rest (multi_download.on_tick n st).1 h2
      simp only [List.foldl_cons, ih, on_tick_deadline_succ n st h, List.length_cons]
      push_cast
      ring

/-- A coordinator mid-transfer: one slot whose last request was at time 0,
final url u, default timeout of 11 seconds, not yet aborted. -/
def c2_state : multi_download :=
  { m_streams := [⟨⟨true, true⟩, (0, 0), 0, 0, 0⟩]
    m_final_url := "u"
    m_accept_multi := true
    m_keep_alive := false
    m_file_size := 100
    m_settings := { default_settings with m_connections_limit := 5, m_piece_size := 32768 }
    m_timer_deadline := 3
    m_storage := some storage_kind.default_storage
    m_abort := false }

/-- C1 counterexample: a successful open whose probe response carries
status code 206 but neither a Content-Length nor a Content-Range header
leaves m_accept_multi false, refuting that for every response with status
code 206 the flag is true regardless of any other response header. -/
theorem accept_multi_false_on_206_without_length :
    ((⟨"206", "", "", "", ""⟩ : Response).status_code = "206") ∧
    (multi_download.open_impl multi_download.init "u" default_settings false
        (ProbeResult.ok ⟨"206", "", "", "", ""⟩) 0).1.m_accept_multi = false :=
  ⟨rfl, by decide⟩

/-- C1 amended: after a successful open, m_accept_multi is true exactly
when the probe status code was 206 and a file size string parsed, namely
the Content-Length header when non-empty, otherwise the part of the
Content-Range header after its first slash. -/
theorem accept_multi_iff_206_and_parsed_size (st : multi_download) (u : String)
    (s : settings) (uf : Bool) (r : Response) (now : ℤ) :
    (multi_download.open_impl st u s uf (ProbeResult.ok r) now).1.m_accept_multi
      = ((r.status_code == "206")
          && ((lexical_cast_int64 r.content_length).isSome
              || (decide (r.content_length = "")
                  && (lexical_cast_int64 (afterSlash r.content_range)).isSome))) :=
  probe_size_accept (r.status_code == "206") r.content_length r.content_range

/-- C2: after close flips the abort flag, a pending on_tick still runs the
timeout loop and issues a brand-new async_open for the stuck slot, so the
coordinator does not stay quiescent once the loop drains. -/
theorem tick_after_close_issues_async_open :
    (multi_download.close c2_state).1.m_abort = true ∧
    Event.asyncOpen 0 "u"
      ∈ (multi_download.on_tick 20 (multi_download.close c2_state).1).2 :=
  ⟨rfl, by decide⟩

/-- C3: close only sets the abort flag; the timer deadline, the stream
pool and the storage sink are untouched and no teardown action (timer
cancel, stream close, meta flush, storage release) is performed. -/
theorem close_only_sets_abort (st : multi_download) :
    multi_download.close st = ({ st with m_abort := true }, []) ∧
    (multi_download.close st).1.m_storage = st.m_storage ∧
    (multi_download.close st).1.m_streams = st.m_streams ∧
    (multi_download.close st).1.m_timer_deadline = st.m_timer_deadline ∧
    (multi_download.close st).2 = [] :=
  ⟨rfl, rfl, rfl, rfl, rfl⟩

/-- A coordinator that already ran a transfer: non-empty pool and a known
file size, so a failing re-open shows which members get clobbered. -/
def c5_state : multi_download :=
  { multi_download.init with
      m_file_size := 77
      m_streams := [⟨⟨true, false⟩, (0, 0), 0, 0, 5⟩]
      m_final_url := "old" }

/-- C5 counterexample: when the probe fails, open has already cleared the
stream pool and reset the file size, so those members do not keep their
values from before the call. -/
theorem open_fail_clears_stream_pool :
    (multi_download.open_impl c5_state "u" default_settings false
        (ProbeResult.fail 1) 0).2.2 = some 1 ∧
    (multi_download.open_impl c5_state "u" default_settings false
        (ProbeResult.fail 1) 0).1.m_file_size ≠ c5_state.m_file_size ∧
    (multi_download.open_impl c5_state "u" default_settings false
        (ProbeResult.fail 1) 0).1.m_streams ≠ c5_state.m_streams :=
  ⟨rfl, by decide, by decide⟩

/-- C5 amended: a failing probe makes open return exactly the probe error
code with no asynchronous operation issued; the final url, flags,
settings, storage, abort flag and timer are unchanged, while the stream
pool has been cleared and the file size reset to -1 by the preamble. -/
theorem open_fail_returns_error_and_resets_pool (st : multi_download) (u : String)
    (s : settings) (uf : Bool) (ec : ℕ) (now : ℤ) :
    (multi_download.open_impl st u s uf (ProbeResult.fail ec) now).2.2 = some ec ∧
    (multi_download.open_impl st u s uf (ProbeResult.fail ec) now).2.1 = [] ∧
    (multi_download.open_impl st u s uf (ProbeResult.fail ec) now).1
      = { st with m_streams := [], m_file_size := -1 } ∧
    (multi_download.open_impl st u s uf (ProbeResult.fail ec) now).1.m_final_url
      = st.m_final_url ∧
    (multi_download.open_impl st u s uf (ProbeResult.fail ec) now).1.m_accept_multi
      = st.m_accept_multi ∧
    (multi_download.open_impl st u s uf (ProbeResult.fail ec) now).1.m_keep_alive
      = st.m_keep_alive ∧
    (multi_download.open_impl st u s uf (ProbeResult.fail ec) now).1.m_settings
      = st.m_settings ∧
    (multi_download.open_impl st u s uf (ProbeResult.fail ec) now).1.m_storage
      = st.m_storage ∧
    (multi_download.open_impl st u s uf (ProbeResult.fail ec) now).1.m_abort
      = st.m_abort ∧
    (multi_download.open_impl st u s uf (ProbeResult.fail ec) now).1.m_timer_deadline
      = st.m_timer_deadline :=
  ⟨rfl, rfl, rfl, rfl, rfl, rfl, rfl, rfl, rfl, rfl⟩

/-- Modelled from the spec: the per-slot state machine with states idle,
opening, requesting, streaming and resetting.  The http_stream_object of
the source carries no such field. -/
inductive SlotState
  | idle
  | opening
  | requesting
  | streaming
  | resetting
deriving DecidableEq, Repr

/-- Modelled from the spec: the reset condition the claim states for the
tick, namely inactivity beyond the timeout conjoined with the slot state
not being idle. -/
def spec_tick_reset_condition (now last time_out : ℤ) (st : SlotState) : Prop :=
  now - last > time_out ∧ st ≠ SlotState.idle

lemma on_tick_events (now : ℤ) (st : multi_download) :
    (multi_download.on_tick now st).2
      = (if st.m_abort then [] else [Event.asyncWaitTimer])
        ++ (tick_loop now st.m_settings.m_time_out st.m_final_url 0 st.m_streams).2 := rfl

lemma on_tick_streams (now : ℤ) (st : multi_download) :
    (multi_download.on_tick now st).1.m_streams
      = (tick_loop now st.m_settings.m_time_out st.m_final_url 0 st.m_streams).1 := rfl

/-- A coordinator with a single slot that has no assignment (request
range (0,0), nothing transferred) and whose last request time is 0. -/
def c4_state : multi_download :=
  { m_streams := [⟨⟨false, false⟩, (0, 0), 0, 0, 0⟩]
    m_final_url := "u"
    m_accept_multi := true
    m_keep_alive := true
    m_file_size := 100
    m_settings := { default_settings with m_connections_limit := 5, m_piece_size := 32768 }
    m_timer_deadline := 3
    m_storage := some storage_kind.default_storage
    m_abort := false }

/-- C4 counterexample: the tick reissues async_open for a slot with no
assignment at all (the natural idle slot) as soon as its inactivity
exceeds the timeout, although the claimed reset condition, taking the
slot to be idle, does not hold; the source tracks no slot state and
exempts nothing from the timeout reset. -/
theorem tick_resets_unassigned_slot_on_timeout :
    Event.asyncOpen 0 "u" ∈ (multi_download.on_tick 20 c4_state).2 ∧
    ¬ spec_tick_reset_condition 20 0 11 SlotState.idle :=
  ⟨by decide, fun h => h.2 rfl⟩

/-- C4 amended: on each tick every slot is forced into the resetting path
(stream closed, replaced by a fresh connection, async_open reissued)
exactly when its inactivity exceeds time_out, with no exemption for any
notion of an idle slot; a slot within time_out is left untouched and gets
no close or async_open event. -/
theorem tick_resets_slot_iff_inactivity_exceeds_timeout
    (st : multi_download) (now : ℤ) (j : ℕ) (s : http_stream_object)
    (h : st.m_streams.get? j = some s) :
    (now - s.m_last_request_time > st.m_settings.m_time_out →
       (multi_download.on_tick now st).1.m_streams.get? j
           = some { s with m_stream := fresh_stream, m_last_request_time := now } ∧
       Event.closeStream j ∈ (multi_download.on_tick now st).2 ∧
       Event.asyncOpen j st.m_final_url ∈ (multi_download.on_tick now st).2) ∧
    (¬ (now - s.m_last_request_time > st.m_settings.m_time_out) →
       (multi_download.on_tick now st).1.m_streams.get? j = some s ∧
       Event.closeStream j ∉ (multi_download.on_tick now st).2 ∧
       ∀ v, Event.asyncOpen j v ∉ (multi_download.on_tick now st).2) := by
  have hget := tick_loop_get now st.m_settings.m_time_out st.m_final_url st.m_streams 0 j
  constructor
  · intro hc
    refine ⟨?_, ?_, ?_⟩
    · rw [on_tick_streams, hget, h]
      simp [tick_check_slot, hc]
    · rw [on_tick_events, List.mem_append]
      right
      exact (tick_loop_mem_close now st.m_settings.m_time_out st.m_final_url j
        st.m_streams 0).mpr ⟨j, s, h, by omega, hc⟩
    · rw [on_tick_events, List.mem_append]
      right
      exact (tick_loop_mem_open now st.m_settings.m_time_out st.m_final_url
        st.m_final_url j st.m_streams 0).mpr ⟨j, s, h, by omega, rfl, hc⟩
  · intro hc
    refine ⟨?_, ?_, ?_⟩
    · rw [on_tick_streams, hget, h]
      simp [tick_check_slot, hc]
    · intro hmem
      rw [on_tick_events, List.mem_append] at hmem
      rcases hmem with hmem | hmem
      · revert hmem
        cases habort : st.m_abort <;> simp
      · obtain ⟨k, s', h1, h2, h3⟩ := (tick_loop_mem_close now st.m_settings.m_time_out
          st.m_final_url j st.m_streams 0).mp hmem
        have hk : k = j := by omega
        subst hk
        rw [h] at h1
        injection h1 with h1
        subst h1
        exact hc h3
    · intro v hmem
      rw [on_tick_events, List.mem_append] at hmem
      rcases hmem with hmem | hmem
      · revert hmem
        cases habort : st.m_abort <;> simp
      · obtain ⟨k, s', h1, h2, h3, h4⟩ := (tick_loop_mem_open now st.m_settings.m_time_out
          st.m_final_url v j st.m_streams 0).mp hmem
        have hk : k = j := by omega
        subst hk
        rw [h] at h1
        injection h1 with h1
        subst h1
        exact hc h4

/-- C4 witness: on the single-slot coordinator whose last request was at
time 0, the tick at time 20 with an 11-second timeout replaces the slot
by a freshly stamped one and emits the close and async_open events. -/
theorem tick_resets_slot_iff_inactivity_exceeds_timeout_witness :
    (multi_download.on_tick 20 c4_state).1.m_streams.get? 0
        = some ⟨fresh_stream, (0, 0), 0, 0, 20⟩ ∧
    Event.closeStream 0 ∈ (multi_download.on_tick 20 c4_state).2 ∧
    Event.asyncOpen 0 "u" ∈ (multi_download.on_tick 20 c4_state).2 :=
  (tick_resets_slot_iff_inactivity_exceeds_timeout c4_state 20 0
      ⟨⟨false, false⟩, (0, 0), 0, 0, 0⟩ rfl).1 (by decide)

/-- C6 counterexample: with connections_limit explicitly 0 and a probe
that establishes multi-connection support, the pool holds one slot (the
probe slot), not connections_limit slots. -/
theorem open_pool_size_one_when_limit_zero :
    (multi_download.open_impl multi_download.init "u"
        { default_settings with m_connections_limit := 0 } false
        (ProbeResult.ok ⟨"206", "100", "", "keep-alive", ""⟩) 0).1.m_accept_multi
      = true ∧
    (multi_download.open_impl multi_download.init "u"
        { default_settings with m_connections_limit := 0 } false
        (ProbeResult.ok ⟨"206", "100", "", "keep-alive", ""⟩) 0).1.m_settings.m_connections_limit = 0 ∧
    (multi_download.open_impl multi_download.init "u"
        { default_settings with m_connections_limit := 0 } false
        (ProbeResult.ok ⟨"206", "100", "", "keep-alive", ""⟩) 0).1.m_streams.length
      = 1 :=
  ⟨by decide, by decide, by decide⟩

/-- C6 amended: a successful open installs the probe connection as slot 0
with its buffered body bytes cleared exactly when keep-alive is on; in
multi-connection mode it opens max(connections_limit - 1, 0) extra slots
through async_open so the pool holds 1 + max(connections_limit - 1, 0)
slots (equal to connections_limit whenever that limit is at least 1), and
without multi-connection support the probe slot is the only one and no
async_open is issued. -/
theorem open_pool_structure (st : multi_download) (u : String) (s : settings)
    (uf : Bool) (r : Response) (now : ℤ) (md : multi_download) (evs : List Event)
    (rc : Option ℕ)
    (h : multi_download.open_impl st u s uf (ProbeResult.ok r) now = (md, evs, rc)) :
    md.m_streams.get? 0
      = some ⟨⟨true, !md.m_keep_alive⟩, (0, 0), 0, 0, now⟩ ∧
    (md.m_accept_multi = true →
       md.m_streams.length = 1 + (md.m_settings.m_connections_limit - 1).toNat ∧
       count_async_open evs = (md.m_settings.m_connections_limit - 1).toNat) ∧
    (md.m_accept_multi = false →
       md.m_streams = [⟨⟨true, !md.m_keep_alive⟩, (0, 0), 0, 0, now⟩] ∧
       count_async_open evs = 0) := by
  have h1 : (multi_download.open_impl st u s uf (ProbeResult.ok r) now).1 = md := by
    rw [h]
  have h2 : (multi_download.open_impl st u s uf (ProbeResult.ok r) now).2.1 = evs := by
    rw [h]
  subst h1
  subst h2
  simp only [multi_download.open_impl, multi_download.open_ok]
  cases hacc : (probe_size (r.status_code == "206") r.content_length r.content_range).2 with
  | false =>
      simp [hacc, make_extra_slots, count_async_open, is_async_open]
  | true =>
      simp only [hacc, if_pos, if_true]
      refine ⟨rfl, fun _ => ⟨?_, ?_⟩, fun hcontra => by cases hcontra⟩
      · simp [make_extra_slots_length]
        omega
      · simp [count_async_open, List.filter_append, is_async_open]
        have := make_extra_slots_count now (if r.location ≠ "" then r.location else u)
          ((apply_default_settings s
            (probe_size (r.status_code == "206") r.content_length r.content_range).1).m_connections_limit - 1).toNat 1
        simpa [count_async_open] using this

/-- C6 witness: a keep-alive 206 probe with Content-Length 100 under
default settings yields the defaulted limit of five connections: a
five-slot pool and four async_open events. -/
theorem open_pool_structure_witness :
    (multi_download.open_impl multi_download.init "u" default_settings false
        (ProbeResult.ok ⟨"206", "100", "", "keep-alive", ""⟩) 0).1.m_streams.length
      = 1 + (((multi_download.open_impl multi_download.init "u" default_settings false
          (ProbeResult.ok ⟨"206", "100", "", "keep-alive", ""⟩) 0).1.m_settings.m_connections_limit - 1)).toNat ∧
    count_async_open (multi_download.open_impl multi_download.init "u" default_settings
        false (ProbeResult.ok ⟨"206", "100", "", "keep-alive", ""⟩) 0).2.1
      = (((multi_download.open_impl multi_download.init "u" default_settings false
          (ProbeResult.ok ⟨"206", "100", "", "keep-alive", ""⟩) 0).1.m_settings.m_connections_limit - 1)).toNat :=
  (open_pool_structure multi_download.init "u" default_settings false
      ⟨"206", "100", "", "keep-alive", ""⟩ 0
      (multi_download.open_impl multi_download.init "u" default_settings false
        (ProbeResult.ok ⟨"206", "100", "", "keep-alive", ""⟩) 0).1
      (multi_download.open_impl multi_download.init "u" default_settings false
        (ProbeResult.ok ⟨"206", "100", "", "keep-alive", ""⟩) 0).2.1
      (multi_download.open_impl multi_download.init "u" default_settings false
        (ProbeResult.ok ⟨"206", "100", "", "keep-alive", ""⟩) 0).2.2
      rfl).2.1 (by decide)

/-- C7 counterexample: a 206 probe whose Content-Length header reads -1
parses successfully through lexical_cast, so open keeps multi-connection
mode enabled while m_file_size ends up -1, the unknown marker; multi mode
being enabled does not imply the total size is known. -/
theorem accept_multi_with_unknown_size_on_negative_length :
    (multi_download.open_impl multi_download.init "u" default_settings false
        (ProbeResult.ok ⟨"206", "-1", "", "", ""⟩) 0).1.m_accept_multi = true ∧
    (multi_download.open_impl multi_download.init "u" default_settings false
        (ProbeResult.ok ⟨"206", "-1", "", "", ""⟩) 0).1.m_file_size = -1 :=
  ⟨by decide, by decide⟩

/-- C7 amended: on a 206 probe the size is taken from Content-Length when
it parses, else (when Content-Length is empty) from the part of
Content-Range after its first slash; when neither parses the size stays
-1 and multi-connection mode is switched off; and whenever multi mode
stays on, the stored size is the successfully parsed header value (which
is -1 exactly in the pathological case of a header spelling -1). -/
theorem probe_size_parsing (cl cr : String) :
    (∀ n, lexical_cast_int64 cl = some n → probe_size true cl cr = (n, true)) ∧
    (cl = "" → ∀ n, lexical_cast_int64 (afterSlash cr) = some n →
        probe_size true cl cr = (n, true)) ∧
    (lexical_cast_int64 cl = none → lexical_cast_int64 (afterSlash cr) = none →
        probe_size true cl cr = (-1, false)) ∧
    (∀ sz, probe_size true cl cr = (sz, true) →
        lexical_cast_int64 (if cl = "" then afterSlash cr else cl) = some sz) := by
  refine ⟨?_, ?_, ?_, ?_⟩
  · intro n hn
    have hcl : ¬ cl = "" := by
      intro hx
      rw [hx, lexical_cast_int64_empty] at hn
      cases hn
    simp [probe_size, hcl, hn]
  · intro hcl n hn
    subst hcl
    have h2 : ¬ afterSlash cr = "" := by
      intro hx
      rw [hx, lexical_cast_int64_empty] at hn
      cases hn
    simp [probe_size, h2, hn]
  · intro h1 h2
    by_cases hcl : cl = ""
    · subst hcl
      by_cases h3 : afterSlash cr = "" <;> simp [probe_size, h2, h3]
    · simp [probe_size, hcl, h1]
  · intro sz hres
    have h : probe_size true cl cr
        = (if (if cl = "" then afterSlash cr else cl) = "" then ((-1 : ℤ), false)
           else
             match lexical_cast_int64 (if cl = "" then afterSlash cr else cl) with
             | some n => (n, true)
             | none => ((-1 : ℤ), false)) := rfl
    rw [h] at hres
    by_cases h3 : (if cl = "" then afterSlash cr else cl) = ""
    · rw [if_pos h3] at hres
      simp at hres
    · rw [if_neg h3] at hres
      cases hx : lexical_cast_int64 (if cl = "" then afterSlash cr else cl) with
      | none => rw [hx] at hres; simp at hres
      | some n =>
          rw [hx] at hres
          have hn : n = sz := congrArg Prod.fst hres
          rw [← hn]

/-- C7 witness: a parseable Content-Length of 100 is adopted as the size
with multi-connection mode kept on. -/
theorem probe_size_parsing_witness : probe_size true "100" "" = (100, true) :=
  (probe_size_parsing "100" "").1 100 (by decide)

/-- A coordinator whose timer deadline sits at 5 seconds, not aborted. -/
def c8_state : multi_download :=
  { multi_download.init with m_timer_deadline := 5 }

/-- C8: while the abort flag is unset every tick moves the timer deadline
to the previous deadline plus one second, independently of the wall
clock passed to the tick, so any sequence of n ticks at arbitrary clock
readings leaves the deadline at the initial deadline plus n seconds. -/
theorem tick_deadline_drift_free (st : multi_download) (h : st.m_abort = false) :
    (∀ now : ℤ, (multi_download.on_tick now st).1.m_timer_deadline
        = st.m_timer_deadline + 1) ∧
    ∀ nows : List ℤ,
      ((nows.foldl (fun acc now => (multi_download.on_tick now acc).1) st).m_timer_deadline
        = st.m_timer_deadline + nows.length) :=
  ⟨fun now => on_tick_deadline_succ now st h, fun nows => tick_fold_deadline nows st h⟩

/-- C8 witness: three ticks at wildly uneven wall-clock readings advance
the deadline from 5 to exactly 8. -/
theorem tick_deadline_drift_free_witness :
    (([3, 100, 7] : List ℤ).foldl
        (fun acc now => (multi_download.on_tick now acc).1) c8_state).m_timer_deadline = 8 :=
  ((tick_deadline_drift_free c8_state rfl).2 [3, 100, 7]).trans (by decide)

/-- C9: storing the settings replaces a -1 connections limit by the
default 5 and, exactly when the file size is known, a -1 piece size by
the default 32768; every other field, and any explicitly set value, is
stored unchanged; and open stores precisely this defaulted settings
value computed from the probed size. -/
theorem settings_defaults_applied (s : settings) (fs : ℤ) :
    (apply_default_settings s fs).m_connections_limit
      = (if s.m_connections_limit = -1 then default_connections_limit
         else s.m_connections_limit) ∧
    (apply_default_settings s fs).m_piece_size
      = (if s.m_piece_size = -1 ∧ fs ≠ -1 then default_piece_size else s.m_piece_size) ∧
    (apply_default_settings s fs).m_download_rate_limit = s.m_download_rate_limit ∧
    (apply_default_settings s fs).m_time_out = s.m_time_out ∧
    (apply_default_settings s fs).m_downlad_mode = s.m_downlad_mode ∧
    (apply_default_settings s fs).m_meta_file = s.m_meta_file ∧
    ∀ (st : multi_download) (u : String) (uf : Bool) (r : Response) (now : ℤ),
      (multi_download.open_impl st u s uf (ProbeResult.ok r) now).1.m_settings
        = apply_default_settings s
            (probe_size (r.status_code == "206") r.content_length r.content_range).1 := by
  refine ⟨?_, ?_, ?_, ?_, ?_, ?_, fun st u uf r now => rfl⟩ <;>
    · unfold apply_default_settings
      by_cases h1 : s.m_connections_limit = -1 <;>
        by_cases h2 : s.m_piece_size = -1 ∧ fs ≠ -1 <;>
          simp [h1, h2]

/-- The default-constructed settings value exactly as the claim lists it:
download_rate_limit -1, connections_limit -1, piece_size -1, time_out 11,
dispersion download mode, empty meta_file path. -/
def claim_default_settings : settings :=
  { m_download_rate_limit := -1
    m_connections_limit := -1
    m_piece_size := -1
    m_time_out := 11
    m_downlad_mode := downlad_mode.dispersion_mode
    m_meta_file := "" }

/-- C10: the two-argument open overload behaves exactly like the settings
overload called with a default-constructed settings value, whose fields
are the ones the claim lists, and with no storage constructor; the
returned error code is the one the settings overload returns. -/
theorem open_two_arg_uses_default_settings :
    default_settings = claim_default_settings ∧
    ∀ (st : multi_download) (u : String) (pr : ProbeResult) (now : ℤ),
      multi_download.open_two_arg st u pr now
        = multi_download.open_impl st u claim_default_settings false pr now :=
  ⟨rfl, fun _ _ _ _ => rfl⟩
